import Mathlib

/-!
Verification of the `@wuespace/envar` variable resolver (src/mod.ts).

The resolver `initVariable(envVariable, validator, defaultValue?)` resolves a
configuration value from the process environment store, a `_FILE` pointer
indirection, or a default value, validates it with a caller-supplied
`ZodSchemaCompat` validator, and publishes it back to the store.

The embedding passes the environment store (a partial map from names to string
values) and the filesystem explicitly; JavaScript truthiness (`undefined` and
the empty string are falsy) is modelled by `truthy`, and thrown errors by an
`Except` result.
-/

namespace Envar

/-- A JavaScript runtime value, as a caller may hand one to a validator's
`safeParse` despite the declared `(value?: string)` signature. -/
inductive JSVal where
  | str (s : String)
  | undef
  | num (n : Int)
  | boolean (b : Bool)
  | sym (description : String)
deriving DecidableEq

/-- JavaScript `typeof` on the modelled runtime values. -/
def typeofJS : JSVal → String
  | .str _ => "string"
  | .undef => "undefined"
  | .num _ => "number"
  | .boolean _ => "boolean"
  | .sym _ => "symbol"

/-- JavaScript template-literal stringification of a value (the result of
interpolating a value or its optional-chained `toString()`). -/
def jsToString : JSVal → String
  | .str s => s
  | .undef => "undefined"
  | .num n => toString n
  | .boolean b => if b then "true" else "false"
  | .sym d => "Symbol(" ++ d ++ ")"

/-- A JavaScript `Error` value, reduced to its message (used as the underlying
cause of resolver errors and as the validator's reported error). -/
structure ErrorV where
  message : String
deriving DecidableEq

/-- Result of `safeParse`: `error` is `none` on success. Models the TypeScript
return type `\x7b error: Error | null | undefined \x7d`, with `null` and
`undefined` both collapsed to `none`. -/
structure SafeParseResult where
  error : Option ErrorV
deriving DecidableEq

/-- The `ZodSchemaCompat` capability contract from src/mod.ts. The thunk
`isOptional: () => boolean` is modelled by its boolean result. -/
structure ZodSchemaCompat where
  safeParse : JSVal → SafeParseResult
  isOptional : Bool

/-- The process environment store (`Deno.env`): a partial map from variable
names to string values. Absence of a key is distinct from the empty string. -/
def Store := String → Option String

/-- `Deno.env.get`. -/
def envGet (env : Store) (k : String) : Option String := env k

/-- `Deno.env.set`. -/
def envSet (env : Store) (k v : String) : Store :=
  fun k' => if k' = k then some v else env k'

/-- `Deno.env.delete`. -/
def envDelete (env : Store) (k : String) : Store :=
  fun k' => if k' = k then none else env k'

/-- JavaScript truthiness of a `Deno.env.get` result: `undefined` and the
empty string are falsy, every non-empty string is truthy. -/
def truthy : Option String → Bool
  | none => false
  | some v => !v.isEmpty

/-- JavaScript `a || b` on `string | undefined` values. -/
def orJS (a b : Option String) : Option String := if truthy a then a else b

/-- Convert the resolver's `string | undefined` candidate to the JavaScript
runtime value the validator receives. -/
def optToJSVal : Option String → JSVal
  | none => JSVal.undef
  | some v => JSVal.str v

/-- The filesystem read primitive (`Deno.readTextFile`): maps a path to the
file's full contents, or fails with the underlying I/O error. -/
def FS := String → Except ErrorV String

/-- Errors thrown by the resolver. `configFileReadError` embeds
`ConfigFileReadError` from src/mod.ts, which stores `envVariable` and
`pathVariable` as fields and sets `this.cause = cause`. `configParseError`
embeds `ConfigParseError`, which is constructed from a message alone, so its
`cause` field records what the constructor sets (the source sets none). -/
inductive InitError where
  | configFileReadError (envVariable pathVariable : String) (message : String) (cause : ErrorV)
  | configParseError (message : String) (cause : Option ErrorV)
deriving DecidableEq

/-- Embeds `setFromFile` from src/mod.ts: if `envVariable ++ "_FILE"` holds a
truthy (non-empty) path, read that file and set `envVariable` to its contents;
on a read failure throw `ConfigFileReadError`; otherwise do nothing. -/
def setFromFile (fs : FS) (envVariable : String) (env : Store) : Except InitError Store :=
  let pathVariable := envVariable ++ "_FILE"
  match envGet env pathVariable with
  | none => Except.ok env
  | some configValuePath =>
    if configValuePath.isEmpty then Except.ok env
    else
      match fs configValuePath with
      | Except.ok fileContent => Except.ok (envSet env envVariable fileContent)
      | Except.error cause =>
        Except.error (InitError.configFileReadError envVariable pathVariable
          ("Could not read file \"" ++ configValuePath ++ "\" to set " ++ envVariable ++
            " (based on " ++ pathVariable ++ "). Details:\nError: " ++ cause.message)
          cause)

/-- Embeds `setFromDefault` from src/mod.ts: set `envVariable` to the default
value, or delete it when no default value is given. -/
def setFromDefault (envVariable : String) (defaultValue : Option String) (env : Store) : Store :=
  match defaultValue with
  | none => envDelete env envVariable
  | some d => envSet env envVariable d

/-- Steps 1–3 of `initVariable` from src/mod.ts: keep a truthy direct value;
otherwise try `setFromFile`; if the entry is still falsy afterwards, apply
`setFromDefault`. A `ConfigFileReadError` aborts resolution. -/
def resolveValue (fs : FS) (envVariable : String) (defaultValue : Option String)
    (env : Store) : Except InitError Store :=
  match (if truthy (envGet env envVariable) then Except.ok env
         else setFromFile fs envVariable env) with
  | Except.error e => Except.error e
  | Except.ok env1 =>
    Except.ok (if truthy (envGet env1 envVariable) then env1
      else setFromDefault envVariable defaultValue env1)

/-- Embeds `initVariable` from src/mod.ts. The pair returned is the outcome
(`Except.ok ()` for a normal return, `Except.error` for a thrown error) and
the environment store after the call. Validation re-reads the store:
the candidate is `Deno.env.get(envVariable) || defaultValue`. -/
def initVariable (fs : FS) (envVariable : String) (validator : ZodSchemaCompat)
    (defaultValue : Option String) (env : Store) : Except InitError Unit × Store :=
  match resolveValue fs envVariable defaultValue env with
  | Except.error e => (Except.error e, env)
  | Except.ok env2 =>
    match (validator.safeParse (optToJSVal (orJS (envGet env2 envVariable) defaultValue))).error with
    | some parseError =>
      (Except.error (InitError.configParseError
        ("Could not parse variable " ++ envVariable ++ ". Details:\nError: " ++
          parseError.message)
        none), env2)
    | none => (Except.ok (), env2)

/-- The built-in `REQUIRED` preset from src/mod.ts: rejects anything that is
not a string (including `undefined`). -/
def REQUIRED : ZodSchemaCompat where
  isOptional := false
  safeParse := fun val =>
    { error := if typeofJS val = "string" then none
        else some { message := "Expected value to be a string, but got " ++ typeofJS val } }

/-- The built-in `OPTIONAL` preset from src/mod.ts: accepts any string or
`undefined`, rejects other types. -/
def OPTIONAL : ZodSchemaCompat where
  isOptional := true
  safeParse := fun val =>
    { error := if typeofJS val = "string" ∨ val = JSVal.undef then none
        else some { message := "Expected value to be a string, but got " ++ typeofJS val } }

/-- The built-in `REQUIRED_NON_EMPTY` preset from src/mod.ts: accepts exactly
the non-empty strings. -/
def REQUIRED_NON_EMPTY : ZodSchemaCompat where
  isOptional := false
  safeParse := fun val =>
    { error := match val with
        | JSVal.str s =>
          if s.length > 0 then none
          else some { message :=
            "Expected value to be a non-empty string, but got \"" ++ s ++ "\"" }
        | v => some { message :=
            "Expected value to be a non-empty string, but got \"" ++ jsToString v ++ "\"" } }

/-- Modelled from the spec: the `OPTIONAL_NON_EMPTY` preset is exported and
documented by the repository (README, changelog) but its definition is not in
src/mod.ts. Per the spec it accepts `undefined` or a non-empty string, rejects
the empty string and any non-string, non-undefined input with a descriptive
error, and its `isOptional()` is `true`. -/
def OPTIONAL_NON_EMPTY : ZodSchemaCompat where
  isOptional := true
  safeParse := fun val =>
    { error := match val with
        | JSVal.undef => none
        | JSVal.str s =>
          if s.length > 0 then none
          else some { message :=
            "Expected value to be undefined or a non-empty string, but got \"" ++ s ++ "\"" }
        | v => some { message :=
            "Expected value to be undefined or a non-empty string, but got \"" ++
              jsToString v ++ "\"" } }

/-- A filesystem on which every read fails (no readable files). -/
def fsNone : FS :=
  fun path => Except.error { message := "ENOENT: no such file or directory, readfile " ++ path }

/-- A filesystem with a single readable file. -/
def fsSingle (path content : String) : FS :=
  fun p => if p = path then Except.ok content
    else Except.error { message := "ENOENT: no such file or directory, readfile " ++ p }

/-- The empty environment store. -/
def storeEmpty : Store := fun _ => none

/-- An environment store holding a single entry. -/
def storeSingle (k v : String) : Store := fun k' => if k' = k then some v else none

/-- A validator that rejects every candidate (a test fixture like the failing
validators in the repository's test suite). -/
def FAILING_VALIDATOR : ZodSchemaCompat where
  isOptional := true
  safeParse := fun _ => { error := some { message := "parse error" } }

/-- A validator with the exact `safeParse` of `REQUIRED` but the opposite
`isOptional` answer. -/
def REQUIRED_MARKED_OPTIONAL : ZodSchemaCompat where
  isOptional := true
  safeParse := REQUIRED.safeParse

/-- Decidable equality for `Except` results, for evaluating concrete runs. -/
instance {e a : Type} [DecidableEq e] [DecidableEq a] : DecidableEq (Except e a)
  | Except.ok x, Except.ok y =>
    if h : x = y then Decidable.isTrue (congrArg Except.ok h)
    else Decidable.isFalse (fun hc => h (Except.ok.inj hc))
  | Except.ok _, Except.error _ => Decidable.isFalse (fun hc => Except.noConfusion hc)
  | Except.error _, Except.ok _ => Decidable.isFalse (fun hc => Except.noConfusion hc)
  | Except.error x, Except.error y =>
    if h : x = y then Decidable.isTrue (congrArg Except.error h)
    else Decidable.isFalse (fun hc => h (Except.error.inj hc))

/-! ### Store algebra -/

theorem envGet_envSet_self (env : Store) (k v : String) :
    envGet (envSet env k v) k = some v := by
  simp [envGet, envSet]

theorem envGet_envSet_ne (env : Store) (k k' v : String) (h : k' ≠ k) :
    envGet (envSet env k v) k' = envGet env k' := by
  simp [envGet, envSet, h]

theorem envGet_envDelete_self (env : Store) (k : String) :
    envGet (envDelete env k) k = none := by
  simp [envGet, envDelete]

theorem envGet_envDelete_ne (env : Store) (k k' : String) (h : k' ≠ k) :
    envGet (envDelete env k) k' = envGet env k' := by
  simp [envGet, envDelete, h]

theorem envSet_eq_self (env : Store) (k v : String) (h : envGet env k = some v) :
    envSet env k v = env := by
  funext k'
  by_cases hk : k' = k
  · subst hk
    simp only [envSet, if_pos rfl]
    exact (h).symm
  · simp [envSet, hk]

theorem envDelete_eq_self (env : Store) (k : String) (h : envGet env k = none) :
    envDelete env k = env := by
  funext k'
  by_cases hk : k' = k
  · subst hk
    simp only [envDelete, if_pos rfl]
    exact (h).symm
  · simp [envDelete, hk]

theorem envSet_envSet (env : Store) (k v w : String) :
    envSet (envSet env k v) k w = envSet env k w := by
  funext k'
  by_cases hk : k' = k <;> simp [envSet, hk]

theorem envDelete_envSet (env : Store) (k v : String) :
    envDelete (envSet env k v) k = envDelete env k := by
  funext k'
  by_cases hk : k' = k <;> simp [envDelete, envSet, hk]

theorem truthy_some (v : String) (h : v ≠ "") : truthy (some v) = true := by
  simp only [truthy, Bool.not_eq_true']
  rw [Bool.eq_false_iff]
  intro hEmpty
  exact h ((String.isEmpty_iff v).mp hEmpty)

theorem truthy_empty : truthy (some "") = false := by decide

theorem eq_empty_of_not_truthy (v : String) (h : truthy (some v) = false) : v = "" := by
  simpa [truthy, String.isEmpty_iff] using h

/-- A variable name differs from its derived `_FILE` pointer name. -/
theorem ne_append_FILE (k : String) : k ≠ k ++ "_FILE" := by
  intro h
  have hlen := congrArg String.length h
  rw [String.length_append] at hlen
  have h5 : ("_FILE" : String).length = 5 := rfl
  rw [h5] at hlen
  omega

/-! ### Branch lemmas for the resolution steps -/

theorem resolveValue_direct (fs : FS) (n : String) (d : Option String) (env : Store)
    (h : truthy (envGet env n) = true) :
    resolveValue fs n d env = Except.ok env := by
  simp [resolveValue, h]

theorem setFromFile_noPath (fs : FS) (n : String) (env : Store)
    (h : envGet env (n ++ "_FILE") = none) :
    setFromFile fs n env = Except.ok env := by
  simp [setFromFile, h]

theorem setFromFile_emptyPath (fs : FS) (n : String) (env : Store)
    (h : envGet env (n ++ "_FILE") = some "") :
    setFromFile fs n env = Except.ok env := by
  have hEmpty : "".isEmpty = true := rfl
  simp [setFromFile, h, hEmpty]

theorem setFromFile_ok (fs : FS) (n : String) (env : Store) (p content : String)
    (h : envGet env (n ++ "_FILE") = some p) (hp : p ≠ "")
    (hf : fs p = Except.ok content) :
    setFromFile fs n env = Except.ok (envSet env n content) := by
  have hne : p.isEmpty = false := by
    rw [Bool.eq_false_iff]
    intro hEmpty
    exact hp ((String.isEmpty_iff p).mp hEmpty)
  simp [setFromFile, h, hne, hf]

theorem setFromFile_error (fs : FS) (n : String) (env : Store) (p : String) (cause : ErrorV)
    (h : envGet env (n ++ "_FILE") = some p) (hp : p ≠ "")
    (hf : fs p = Except.error cause) :
    setFromFile fs n env = Except.error (InitError.configFileReadError n (n ++ "_FILE")
      ("Could not read file \"" ++ p ++ "\" to set " ++ n ++
        " (based on " ++ (n ++ "_FILE") ++ "). Details:\nError: " ++ cause.message) cause) := by
  have hne : p.isEmpty = false := by
    rw [Bool.eq_false_iff]
    intro hEmpty
    exact hp ((String.isEmpty_iff p).mp hEmpty)
  simp [setFromFile, h, hne, hf]

theorem resolveValue_of_setFromFile_ok (fs : FS) (n : String) (d : Option String)
    (env env1 : Store) (h1 : truthy (envGet env n) = false)
    (h2 : setFromFile fs n env = Except.ok env1) :
    resolveValue fs n d env =
      Except.ok (if truthy (envGet env1 n) then env1 else setFromDefault n d env1) := by
  simp [resolveValue, h1, h2]

theorem resolveValue_of_setFromFile_error (fs : FS) (n : String) (d : Option String)
    (env : Store) (e : InitError) (h1 : truthy (envGet env n) = false)
    (h2 : setFromFile fs n env = Except.error e) :
    resolveValue fs n d env = Except.error e := by
  simp [resolveValue, h1, h2]

theorem envGet_setFromDefault_self (n : String) (d : Option String) (env : Store) :
    envGet (setFromDefault n d env) n = d := by
  cases d <;> simp [setFromDefault, envGet_envDelete_self, envGet_envSet_self]

theorem envGet_setFromDefault_ne (n : String) (d : Option String) (env : Store)
    (k : String) (hk : k ≠ n) :
    envGet (setFromDefault n d env) k = envGet env k := by
  cases d
  · simp [setFromDefault, envGet_envDelete_ne _ _ _ hk]
  · simp [setFromDefault, envGet_envSet_ne _ _ _ _ hk]

theorem setFromDefault_eq_self (n : String) (d : Option String) (env : Store)
    (h : envGet env n = d) : setFromDefault n d env = env := by
  cases d
  · exact envDelete_eq_self env n h
  · exact envSet_eq_self env n _ h

theorem setFromDefault_envSet (n : String) (d : Option String) (env : Store) (v : String) :
    setFromDefault n d (envSet env n v) = setFromDefault n d env := by
  cases d
  · simp [setFromDefault, envDelete_envSet]
  · simp [setFromDefault, envSet_envSet]

theorem exists_of_truthy (o : Option String) (h : truthy o = true) :
    ∃ v, o = some v ∧ v ≠ "" := by
  cases o with
  | none => simp [truthy] at h
  | some v =>
    refine ⟨v, rfl, ?_⟩
    intro hv
    subst hv
    exact absurd h (by decide)

theorem setFromFile_falsy (fs : FS) (n : String) (env : Store)
    (h : truthy (envGet env (n ++ "_FILE")) = false) :
    setFromFile fs n env = Except.ok env := by
  cases hpath : envGet env (n ++ "_FILE") with
  | none => exact setFromFile_noPath fs n env hpath
  | some p =>
    rw [hpath] at h
    have hp := eq_empty_of_not_truthy p h
    subst hp
    exact setFromFile_emptyPath fs n env hpath

/-- A store in which the entry for `n` is truthy, or equals the default value
while another source round would produce nothing new, is a fixed point of the
source-resolution steps. -/
theorem resolveValue_stable (fs : FS) (n : String) (d : Option String) (env2 : Store)
    (h : truthy (envGet env2 n) = true ∨
      (envGet env2 n = d ∧ truthy (envGet env2 n) = false ∧
        (setFromFile fs n env2 = Except.ok env2 ∨
         setFromFile fs n env2 = Except.ok (envSet env2 n "")))) :
    resolveValue fs n d env2 = Except.ok env2 := by
  rcases h with h | ⟨hd, hf, hfile | hfile⟩
  · exact resolveValue_direct fs n d env2 h
  · rw [resolveValue_of_setFromFile_ok fs n d env2 env2 hf hfile]
    simp [hf, setFromDefault_eq_self n d env2 hd]
  · rw [resolveValue_of_setFromFile_ok fs n d env2 _ hf hfile]
    have hset : truthy (envGet (envSet env2 n "") n) = false := by
      rw [envGet_envSet_self]
      exact truthy_empty
    simp only [hset, Bool.false_eq_true, if_false]
    rw [setFromDefault_envSet, setFromDefault_eq_self n d env2 hd]

/-- Main characterization of a successful source resolution: the resulting
entry for `n` is truthy, or empty with an empty-string default, or absent with
no default; all other keys are untouched; and the resulting store is a fixed
point of source resolution under the same filesystem. -/
theorem resolveValue_ok_main (fs : FS) (n : String) (d : Option String) (env env2 : Store)
    (h : resolveValue fs n d env = Except.ok env2) :
    (truthy (envGet env2 n) = true ∨ (envGet env2 n = some "" ∧ d = some "")
      ∨ (envGet env2 n = none ∧ d = none))
    ∧ (∀ k, k ≠ n → envGet env2 k = envGet env k)
    ∧ resolveValue fs n d env2 = Except.ok env2 := by
  have hfne : (n ++ "_FILE") ≠ n := Ne.symm (ne_append_FILE n)
  by_cases h1 : truthy (envGet env n) = true
  · rw [resolveValue_direct fs n d env h1] at h
    injection h with h
    subst h
    exact ⟨Or.inl h1, fun k _ => rfl, resolveValue_direct fs n d env h1⟩
  · rw [Bool.not_eq_true] at h1
    by_cases hpt : truthy (envGet env (n ++ "_FILE")) = true
    · obtain ⟨p, hpath, hp⟩ := exists_of_truthy _ hpt
      cases hfs : fs p with
      | error cause =>
        rw [resolveValue_of_setFromFile_error fs n d env _ h1
          (setFromFile_error fs n env p cause hpath hp hfs)] at h
        exact absurd h (by simp)
      | ok content =>
        have hsf := setFromFile_ok fs n env p content hpath hp hfs
        rw [resolveValue_of_setFromFile_ok fs n d env _ h1 hsf] at h
        by_cases hc : content = ""
        · subst hc
          have hset : truthy (envGet (envSet env n "") n) = false := by
            rw [envGet_envSet_self]
            exact truthy_empty
          simp only [hset, Bool.false_eq_true, if_false] at h
          injection h with h
          subst h
          have hentry : envGet (setFromDefault n d (envSet env n "")) n = d :=
            envGet_setFromDefault_self n d _
          have hpres : ∀ k, k ≠ n →
              envGet (setFromDefault n d (envSet env n "")) k = envGet env k := by
            intro k hk
            rw [envGet_setFromDefault_ne n d _ k hk, envGet_envSet_ne env n k "" hk]
          refine ⟨?_, hpres, ?_⟩
          · cases d with
            | none => exact Or.inr (Or.inr ⟨hentry, rfl⟩)
            | some dv =>
              by_cases hdv : dv = ""
              · subst hdv
                exact Or.inr (Or.inl ⟨hentry, rfl⟩)
              · exact Or.inl (by rw [hentry]; exact truthy_some dv hdv)
          · apply resolveValue_stable
            by_cases htd : truthy d = true
            · exact Or.inl (by rw [hentry]; exact htd)
            · rw [Bool.not_eq_true] at htd
              refine Or.inr ⟨hentry, by rw [hentry]; exact htd, Or.inr ?_⟩
              exact setFromFile_ok fs n _ p "" (by rw [hpres _ hfne, hpath]) hp hfs
        · have hset : truthy (envGet (envSet env n content) n) = true := by
            rw [envGet_envSet_self]
            exact truthy_some content hc
          simp only [hset, if_true] at h
          injection h with h
          subst h
          refine ⟨Or.inl hset, ?_, resolveValue_direct fs n d _ hset⟩
          intro k hk
          exact envGet_envSet_ne env n k content hk
    · rw [Bool.not_eq_true] at hpt
      have hsf := setFromFile_falsy fs n env hpt
      rw [resolveValue_of_setFromFile_ok fs n d env env h1 hsf] at h
      simp only [h1, Bool.false_eq_true, if_false] at h
      injection h with h
      subst h
      have hentry : envGet (setFromDefault n d env) n = d :=
        envGet_setFromDefault_self n d env
      have hpres : ∀ k, k ≠ n → envGet (setFromDefault n d env) k = envGet env k :=
        fun k hk => envGet_setFromDefault_ne n d env k hk
      refine ⟨?_, hpres, ?_⟩
      · cases d with
        | none => exact Or.inr (Or.inr ⟨hentry, rfl⟩)
        | some dv =>
          by_cases hdv : dv = ""
          · subst hdv
            exact Or.inr (Or.inl ⟨hentry, rfl⟩)
          · exact Or.inl (by rw [hentry]; exact truthy_some dv hdv)
      · apply resolveValue_stable
        by_cases htd : truthy d = true
        · exact Or.inl (by rw [hentry]; exact htd)
        · rw [Bool.not_eq_true] at htd
          refine Or.inr ⟨hentry, by rw [hentry]; exact htd, Or.inl ?_⟩
          apply setFromFile_falsy
          rw [hpres _ hfne]
          exact hpt

/-- Every error produced by the source-resolution steps is a
`ConfigFileReadError` for `n` and its derived `_FILE` pointer variable. -/
theorem resolveValue_error_shape (fs : FS) (n : String) (d : Option String)
    (env : Store) (e : InitError) (h : resolveValue fs n d env = Except.error e) :
    ∃ msg cause, e = InitError.configFileReadError n (n ++ "_FILE") msg cause := by
  by_cases h1 : truthy (envGet env n) = true
  · rw [resolveValue_direct fs n d env h1] at h
    exact absurd h (by simp)
  · rw [Bool.not_eq_true] at h1
    by_cases hpt : truthy (envGet env (n ++ "_FILE")) = true
    · obtain ⟨p, hpath, hp⟩ := exists_of_truthy _ hpt
      cases hfs : fs p with
      | error cause =>
        rw [resolveValue_of_setFromFile_error fs n d env _ h1
          (setFromFile_error fs n env p cause hpath hp hfs)] at h
        injection h with h
        exact ⟨_, cause, h.symm⟩
      | ok content =>
        rw [resolveValue_of_setFromFile_ok fs n d env _ h1
          (setFromFile_ok fs n env p content hpath hp hfs)] at h
        exact absurd h (by simp)
    · rw [Bool.not_eq_true] at hpt
      rw [resolveValue_of_setFromFile_ok fs n d env env h1 (setFromFile_falsy fs n env hpt)] at h
      exact absurd h (by simp)

theorem orJS_truthy (a b : Option String) (h : truthy a = true) : orJS a b = a := by
  simp [orJS, h]

theorem orJS_falsy (a b : Option String) (h : truthy a = false) : orJS a b = b := by
  simp [orJS, h]

theorem pairEq {α β : Type} (p q : α × β) (h1 : p.1 = q.1) (h2 : p.2 = q.2) : p = q := by
  cases p
  cases q
  cases h1
  cases h2
  rfl

theorem initVariable_fileError (fs : FS) (n : String) (validator : ZodSchemaCompat)
    (d : Option String) (env : Store) (e : InitError)
    (h : resolveValue fs n d env = Except.error e) :
    initVariable fs n validator d env = (Except.error e, env) := by
  simp [initVariable, h]

/-- Behaviour of `initVariable` once the source steps produced a store: the
final store is that store, and the outcome is decided by `safeParse` on the
re-read candidate. -/
theorem initVariable_resolved (fs : FS) (n : String) (validator : ZodSchemaCompat)
    (d : Option String) (env env2 : Store) (h : resolveValue fs n d env = Except.ok env2) :
    (initVariable fs n validator d env).2 = env2 ∧
    ((validator.safeParse (optToJSVal (orJS (envGet env2 n) d))).error = none →
      (initVariable fs n validator d env).1 = Except.ok ()) ∧
    (∀ e, (validator.safeParse (optToJSVal (orJS (envGet env2 n) d))).error = some e →
      (initVariable fs n validator d env).1 = Except.error (InitError.configParseError
        ("Could not parse variable " ++ n ++ ". Details:\nError: " ++ e.message) none)) := by
  refine ⟨?_, ?_, ?_⟩
  · cases hval : (validator.safeParse (optToJSVal (orJS (envGet env2 n) d))).error <;>
      simp [initVariable, h, hval]
  · intro hval
    simp [initVariable, h, hval]
  · intro e hval
    simp [initVariable, h, hval]

/-! ### Claims -/

/-- C1: when the environment store already holds a non-empty value `v` under
the name, the resolver leaves the store unchanged (so the resolved value is
`v`, no file content and no default is applied), the result is independent of
the filesystem and of the default value (no file is read), and `v` is the
candidate passed to `validator.safeParse`, which alone decides success. -/
theorem c1_direct_value_precedence (fs fs' : FS) (n : String) (validator : ZodSchemaCompat)
    (d d' : Option String) (env : Store) (v : String)
    (hv : envGet env n = some v) (hne : v ≠ "") :
    (initVariable fs n validator d env).2 = env ∧
    envGet (initVariable fs n validator d env).2 n = some v ∧
    ((initVariable fs n validator d env).1 = Except.ok () ↔
      (validator.safeParse (JSVal.str v)).error = none) ∧
    initVariable fs n validator d env = initVariable fs' n validator d' env := by
  have htv : truthy (some v) = true := truthy_some v hne
  have htruthy : truthy (envGet env n) = true := by rw [hv]; exact htv
  have hcand : ∀ dd : Option String, optToJSVal (orJS (envGet env n) dd) = JSVal.str v := by
    intro dd
    rw [hv, orJS_truthy _ _ htv]
    rfl
  obtain ⟨hsnd, hok, herr⟩ :=
    initVariable_resolved fs n validator d env env (resolveValue_direct fs n d env htruthy)
  obtain ⟨hsnd', hok', herr'⟩ :=
    initVariable_resolved fs' n validator d' env env (resolveValue_direct fs' n d' env htruthy)
  refine ⟨hsnd, by rw [hsnd]; exact hv, ?_, ?_⟩
  · cases hval : (validator.safeParse (JSVal.str v)).error with
    | none =>
      exact ⟨fun _ => rfl, fun _ => hok (by rw [hcand d, hval])⟩
    | some e =>
      constructor
      · intro hfst
        rw [herr e (by rw [hcand d, hval])] at hfst
        exact absurd hfst (by simp)
      · intro hnone
        exact absurd hnone (by simp)
  · cases hval : (validator.safeParse (JSVal.str v)).error with
    | none =>
      exact pairEq _ _ (by rw [hok (by rw [hcand d, hval]), hok' (by rw [hcand d', hval])])
        (by rw [hsnd, hsnd'])
    | some e =>
      exact pairEq _ _
        (by rw [herr e (by rw [hcand d, hval]), herr' e (by rw [hcand d', hval])])
        (by rw [hsnd, hsnd'])

/-- C1 witness: concrete instance with a direct value present. -/
theorem c1_witness :
    envGet (storeSingle "X" "x") "X" = some "x" ∧ "x" ≠ "" ∧
    ((initVariable fsNone "X" REQUIRED none (storeSingle "X" "x")).2 = storeSingle "X" "x" ∧
      envGet (initVariable fsNone "X" REQUIRED none (storeSingle "X" "x")).2 "X" = some "x" ∧
      ((initVariable fsNone "X" REQUIRED none (storeSingle "X" "x")).1 = Except.ok () ↔
        (REQUIRED.safeParse (JSVal.str "x")).error = none) ∧
      initVariable fsNone "X" REQUIRED none (storeSingle "X" "x") =
        initVariable (fsSingle "p" "c") "X" REQUIRED (some "8080") (storeSingle "X" "x")) :=
  ⟨by decide, by decide,
    c1_direct_value_precedence fsNone (fsSingle "p" "c") "X" REQUIRED none (some "8080")
      (storeSingle "X" "x") "x" (by decide) (by decide)⟩

/-- C2 counterexample: `X_FILE` points at a readable file whose contents are
empty, a default `"d"` is provided, and the store has no direct value. The
claim says the resolved value equals the file's exact contents (`""`) and
takes precedence over the default; the code instead treats the freshly
written empty value as unset and applies the default, resolving to `"d"`. -/
theorem c2_counterexample :
    envGet (storeSingle "X_FILE" "p") "X" = none ∧
    envGet (storeSingle "X_FILE" "p") ("X" ++ "_FILE") = some "p" ∧
    fsSingle "p" "" "p" = Except.ok "" ∧
    (initVariable (fsSingle "p" "") "X" OPTIONAL (some "d") (storeSingle "X_FILE" "p")).1 =
      Except.ok () ∧
    envGet (initVariable (fsSingle "p" "") "X" OPTIONAL (some "d")
      (storeSingle "X_FILE" "p")).2 "X" = some "d" := by
  decide

/-- C2 (amended): with no truthy direct value, a non-empty `_FILE` path, and a
readable file with NON-EMPTY contents, the resolved value is the file's exact
contents (no trimming), they are written into the store, they take precedence
over any provided default (the result is independent of the default), and
they are the candidate validated. (The non-emptiness condition is forced:
empty file contents are written but then overridden by the default step.) -/
theorem c2_file_value (fs : FS) (n : String) (validator : ZodSchemaCompat) (d : Option String)
    (env : Store) (p content : String)
    (h1 : truthy (envGet env n) = false)
    (hpath : envGet env (n ++ "_FILE") = some p) (hp : p ≠ "")
    (hread : fs p = Except.ok content) (hc : content ≠ "") :
    (initVariable fs n validator d env).2 = envSet env n content ∧
    envGet (initVariable fs n validator d env).2 n = some content ∧
    ((initVariable fs n validator d env).1 = Except.ok () ↔
      (validator.safeParse (JSVal.str content)).error = none) ∧
    ∀ d', initVariable fs n validator d' env = initVariable fs n validator d env := by
  have hsf := setFromFile_ok fs n env p content hpath hp hread
  have hset : truthy (envGet (envSet env n content) n) = true := by
    rw [envGet_envSet_self]
    exact truthy_some content hc
  have hres : ∀ dd : Option String, resolveValue fs n dd env =
      Except.ok (envSet env n content) := by
    intro dd
    rw [resolveValue_of_setFromFile_ok fs n dd env _ h1 hsf]
    simp [hset]
  have hcand : ∀ dd : Option String,
      optToJSVal (orJS (envGet (envSet env n content) n) dd) = JSVal.str content := by
    intro dd
    rw [envGet_envSet_self, orJS_truthy _ _ (truthy_some content hc)]
    rfl
  obtain ⟨hsnd, hok, herr⟩ := initVariable_resolved fs n validator d env _ (hres d)
  refine ⟨hsnd, by rw [hsnd, envGet_envSet_self], ?_, ?_⟩
  · cases hval : (validator.safeParse (JSVal.str content)).error with
    | none => exact ⟨fun _ => rfl, fun _ => hok (by rw [hcand d, hval])⟩
    | some e =>
      constructor
      · intro hfst
        rw [herr e (by rw [hcand d, hval])] at hfst
        exact absurd hfst (by simp)
      · intro hnone
        exact absurd hnone (by simp)
  · intro d'
    obtain ⟨hsnd', hok', herr'⟩ := initVariable_resolved fs n validator d' env _ (hres d')
    cases hval : (validator.safeParse (JSVal.str content)).error with
    | none =>
      exact pairEq _ _ (by rw [hok' (by rw [hcand d', hval]), hok (by rw [hcand d, hval])])
        (by rw [hsnd, hsnd'])
    | some e =>
      exact pairEq _ _
        (by rw [herr' e (by rw [hcand d', hval]), herr e (by rw [hcand d, hval])])
        (by rw [hsnd, hsnd'])

/-- C2 witness: the spec's concrete secret-file scenario (trailing newline
preserved, default ignored). -/
theorem c2_witness :
    truthy (envGet (storeSingle "SECRET_FILE" "sp") "SECRET") = false ∧
    envGet (storeSingle "SECRET_FILE" "sp") ("SECRET" ++ "_FILE") = some "sp" ∧
    fsSingle "sp" "s3cr3t\n" "sp" = Except.ok "s3cr3t\n" ∧
    (initVariable (fsSingle "sp" "s3cr3t\n") "SECRET" REQUIRED_NON_EMPTY (some "default")
      (storeSingle "SECRET_FILE" "sp")).2 =
      envSet (storeSingle "SECRET_FILE" "sp") "SECRET" "s3cr3t\n" ∧
    envGet (initVariable (fsSingle "sp" "s3cr3t\n") "SECRET" REQUIRED_NON_EMPTY (some "default")
      (storeSingle "SECRET_FILE" "sp")).2 "SECRET" = some "s3cr3t\n" :=
  ⟨by decide, by decide, by decide,
    (c2_file_value (fsSingle "sp" "s3cr3t\n") "SECRET" REQUIRED_NON_EMPTY (some "default")
      (storeSingle "SECRET_FILE" "sp") "sp" "s3cr3t\n" (by decide) (by decide) (by decide)
      (by decide) (by decide)).1,
    (c2_file_value (fsSingle "sp" "s3cr3t\n") "SECRET" REQUIRED_NON_EMPTY (some "default")
      (storeSingle "SECRET_FILE" "sp") "sp" "s3cr3t\n" (by decide) (by decide) (by decide)
      (by decide) (by decide)).2.1⟩

/-- C3: with no truthy direct value and a non-empty `_FILE` path whose read
fails, the call rejects with a `ConfigFileReadError` carrying the variable
name, the derived pointer-variable name and the underlying I/O cause; the
store is unchanged (the default is never applied) and the result is
independent of the validator and default (validation is never reached). -/
theorem c3_file_read_failure (fs : FS) (n : String) (validator : ZodSchemaCompat)
    (d : Option String) (env : Store) (p : String) (cause : ErrorV)
    (h1 : truthy (envGet env n) = false)
    (hpath : envGet env (n ++ "_FILE") = some p) (hp : p ≠ "")
    (hread : fs p = Except.error cause) :
    (initVariable fs n validator d env).1 = Except.error (InitError.configFileReadError
      n (n ++ "_FILE")
      ("Could not read file \"" ++ p ++ "\" to set " ++ n ++
        " (based on " ++ (n ++ "_FILE") ++ "). Details:\nError: " ++ cause.message) cause) ∧
    (initVariable fs n validator d env).2 = env ∧
    ∀ validator' d', initVariable fs n validator d env = initVariable fs n validator' d' env := by
  have hsf := setFromFile_error fs n env p cause hpath hp hread
  have hres : ∀ dd : Option String, resolveValue fs n dd env = Except.error
      (InitError.configFileReadError n (n ++ "_FILE")
        ("Could not read file \"" ++ p ++ "\" to set " ++ n ++
          " (based on " ++ (n ++ "_FILE") ++ "). Details:\nError: " ++ cause.message) cause) :=
    fun dd => resolveValue_of_setFromFile_error fs n dd env _ h1 hsf
  refine ⟨?_, ?_, ?_⟩
  · rw [initVariable_fileError fs n validator d env _ (hres d)]
  · rw [initVariable_fileError fs n validator d env _ (hres d)]
  · intro validator' d'
    rw [initVariable_fileError fs n validator d env _ (hres d),
      initVariable_fileError fs n validator' d' env _ (hres d')]

/-- C3 witness: concrete instance with a `_FILE` pointer to a non-existent
path and a default value that is never applied. -/
theorem c3_witness :
    truthy (envGet (storeSingle "X_FILE" "p") "X") = false ∧
    envGet (storeSingle "X_FILE" "p") ("X" ++ "_FILE") = some "p" ∧
    fsNone "p" = Except.error
      { message := "ENOENT: no such file or directory, readfile p" } ∧
    (initVariable fsNone "X" REQUIRED (some "8080") (storeSingle "X_FILE" "p")).1 =
      Except.error (InitError.configFileReadError "X" ("X" ++ "_FILE")
        ("Could not read file \"" ++ "p" ++ "\" to set " ++ "X" ++
          " (based on " ++ ("X" ++ "_FILE") ++ "). Details:\nError: " ++
          "ENOENT: no such file or directory, readfile p")
        { message := "ENOENT: no such file or directory, readfile p" }) ∧
    (initVariable fsNone "X" REQUIRED (some "8080") (storeSingle "X_FILE" "p")).2 =
      storeSingle "X_FILE" "p" :=
  ⟨by decide, by decide, by decide,
    (c3_file_read_failure fsNone "X" REQUIRED (some "8080") (storeSingle "X_FILE" "p") "p"
      { message := "ENOENT: no such file or directory, readfile p" } (by decide) (by decide)
      (by decide) (by decide)).1,
    (c3_file_read_failure fsNone "X" REQUIRED (some "8080") (storeSingle "X_FILE" "p") "p"
      { message := "ENOENT: no such file or directory, readfile p" } (by decide) (by decide)
      (by decide) (by decide)).2.1⟩

/-- C4: with no truthy direct value and no truthy `_FILE` pointer: a provided
default value is written into the store (so a successful call leaves the entry
equal to the default); with no default, any existing entry is removed, the
candidate is `undefined`, success leaves no entry when the validator accepts
`undefined`, and a validator rejecting `undefined` produces a validation
failure. -/
theorem c4_default_and_absence (fs : FS) (n : String) (validator : ZodSchemaCompat)
    (env : Store)
    (h1 : truthy (envGet env n) = false)
    (h2 : truthy (envGet env (n ++ "_FILE")) = false) :
    (∀ dv, (initVariable fs n validator (some dv) env).2 = envSet env n dv) ∧
    (initVariable fs n validator none env).2 = envDelete env n ∧
    ((validator.safeParse JSVal.undef).error = none →
      (initVariable fs n validator none env).1 = Except.ok () ∧
      envGet (initVariable fs n validator none env).2 n = none) ∧
    (∀ e, (validator.safeParse JSVal.undef).error = some e →
      (initVariable fs n validator none env).1 = Except.error (InitError.configParseError
        ("Could not parse variable " ++ n ++ ". Details:\nError: " ++ e.message) none)) := by
  have hsf := setFromFile_falsy fs n env h2
  have hres : ∀ dd : Option String, resolveValue fs n dd env =
      Except.ok (setFromDefault n dd env) := by
    intro dd
    rw [resolveValue_of_setFromFile_ok fs n dd env env h1 hsf]
    simp [h1]
  have hcand : optToJSVal (orJS (envGet (setFromDefault n none env) n) none) = JSVal.undef := by
    rw [envGet_setFromDefault_self]
    rfl
  obtain ⟨hsndN, hokN, herrN⟩ := initVariable_resolved fs n validator none env _ (hres none)
  refine ⟨?_, ?_, ?_, ?_⟩
  · intro dv
    obtain ⟨hsnd, _, _⟩ := initVariable_resolved fs n validator (some dv) env _ (hres (some dv))
    rw [hsnd]
    rfl
  · rw [hsndN]
    rfl
  · intro hval
    have hok := hokN (by rw [hcand, hval])
    refine ⟨hok, ?_⟩
    rw [hsndN]
    exact envGet_setFromDefault_self n none env
  · intro e hval
    exact herrN e (by rw [hcand, hval])

/-- C4 witness: the spec's `PORT`/`"8080"` default scenario, a required
validator failing on full absence, and an optional validator succeeding with
no entry left. -/
theorem c4_witness :
    truthy (envGet storeEmpty "PORT") = false ∧
    truthy (envGet storeEmpty ("PORT" ++ "_FILE")) = false ∧
    (initVariable fsNone "PORT" REQUIRED (some "8080") storeEmpty).2 =
      envSet storeEmpty "PORT" "8080" ∧
    (initVariable fsNone "PORT" REQUIRED none storeEmpty).1 = Except.error
      (InitError.configParseError
        ("Could not parse variable " ++ "PORT" ++ ". Details:\nError: " ++
          "Expected value to be a string, but got undefined") none) ∧
    (initVariable fsNone "PORT" OPTIONAL none storeEmpty).1 = Except.ok () ∧
    envGet (initVariable fsNone "PORT" OPTIONAL none storeEmpty).2 "PORT" = none :=
  ⟨by decide, by decide,
    (c4_default_and_absence fsNone "PORT" REQUIRED storeEmpty (by decide) (by decide)).1 "8080",
    (c4_default_and_absence fsNone "PORT" REQUIRED storeEmpty (by decide) (by decide)).2.2.2
      { message := "Expected value to be a string, but got undefined" } (by decide),
    ((c4_default_and_absence fsNone "PORT" OPTIONAL storeEmpty (by decide)
      (by decide)).2.2.1 (by decide)).1,
    ((c4_default_and_absence fsNone "PORT" OPTIONAL storeEmpty (by decide)
      (by decide)).2.2.1 (by decide)).2⟩

/-- C5 counterexample: `REQUIRED` rejects the absent candidate, and the
thrown `ConfigParseError` has no cause set (its cause field is `none`); it
does not carry the underlying validator error as its cause (the validator
error only appears stringified inside the message). -/
theorem c5_counterexample :
    (REQUIRED.safeParse JSVal.undef).error =
      some { message := "Expected value to be a string, but got undefined" } ∧
    (initVariable fsNone "X" REQUIRED none storeEmpty).1 = Except.error
      (InitError.configParseError
        ("Could not parse variable " ++ "X" ++ ". Details:\nError: " ++
          "Expected value to be a string, but got undefined") none) ∧
    (initVariable fsNone "X" REQUIRED none storeEmpty).1 ≠ Except.error
      (InitError.configParseError
        ("Could not parse variable " ++ "X" ++ ". Details:\nError: " ++
          "Expected value to be a string, but got undefined")
        (some { message := "Expected value to be a string, but got undefined" })) := by
  decide

/-- C5 (amended): a call returns normally only when `safeParse` accepted the
re-read final candidate; otherwise it aborts, either with a file-read failure
(validation never reached) or, whenever `safeParse` returned a non-null error
on the final candidate, with a validation failure: a `ConfigParseError` whose
message carries the variable name and the stringified validator error, and
whose cause is not set; no error is caught or retried inside the resolver.
In particular a run on which `safeParse` rejects the final candidate cannot
return normally: it rejects with one of the two error shapes. -/
theorem c5_validation_failure_shape (fs : FS) (n : String) (validator : ZodSchemaCompat)
    (d : Option String) (env : Store) :
    (((initVariable fs n validator d env).1 = Except.ok () ∧
      (validator.safeParse (optToJSVal (orJS
        (envGet (initVariable fs n validator d env).2 n) d))).error = none) ∨
    (∃ msg cause, (initVariable fs n validator d env).1 =
      Except.error (InitError.configFileReadError n (n ++ "_FILE") msg cause)) ∨
    (∃ err, (validator.safeParse (optToJSVal (orJS
        (envGet (initVariable fs n validator d env).2 n) d))).error = some err ∧
      (initVariable fs n validator d env).1 = Except.error (InitError.configParseError
        ("Could not parse variable " ++ n ++ ". Details:\nError: " ++ err.message) none))) ∧
    ∀ err, (validator.safeParse (optToJSVal (orJS
        (envGet (initVariable fs n validator d env).2 n) d))).error = some err →
      (initVariable fs n validator d env).1 ≠ Except.ok () := by
  constructor
  · cases hres : resolveValue fs n d env with
    | error e =>
      obtain ⟨msg, cause, he⟩ := resolveValue_error_shape fs n d env e hres
      rw [initVariable_fileError fs n validator d env e hres]
      exact Or.inr (Or.inl ⟨msg, cause, by rw [he]⟩)
    | ok env2 =>
      obtain ⟨hsnd, hok, herr⟩ := initVariable_resolved fs n validator d env env2 hres
      cases hval : (validator.safeParse (optToJSVal (orJS (envGet env2 n) d))).error with
      | none =>
        refine Or.inl ⟨hok hval, ?_⟩
        rw [hsnd]
        exact hval
      | some e =>
        refine Or.inr (Or.inr ⟨e, ?_, herr e hval⟩)
        rw [hsnd]
        exact hval
  · intro err hval hok
    cases hres : resolveValue fs n d env with
    | error e =>
      rw [initVariable_fileError fs n validator d env e hres] at hok
      exact absurd hok (by simp)
    | ok env2 =>
      obtain ⟨hsnd, _, herr⟩ := initVariable_resolved fs n validator d env env2 hres
      rw [hsnd] at hval
      rw [herr err hval] at hok
      exact absurd hok (by simp)

/-- C6: after every successful call, the validated candidate was accepted and
equals the store's entry when one is present; when no entry is present the
default was absent and the accepted candidate was `undefined`. -/
theorem c6_store_matches_validated (fs : FS) (n : String) (validator : ZodSchemaCompat)
    (d : Option String) (env : Store)
    (hsucc : (initVariable fs n validator d env).1 = Except.ok ()) :
    (validator.safeParse (optToJSVal (orJS
      (envGet (initVariable fs n validator d env).2 n) d))).error = none ∧
    (∀ v, envGet (initVariable fs n validator d env).2 n = some v →
      orJS (envGet (initVariable fs n validator d env).2 n) d = some v) ∧
    (envGet (initVariable fs n validator d env).2 n = none →
      orJS (envGet (initVariable fs n validator d env).2 n) d = none ∧ d = none) := by
  cases hres : resolveValue fs n d env with
  | error e =>
    rw [initVariable_fileError fs n validator d env e hres] at hsucc
    exact absurd hsucc (by simp)
  | ok env2 =>
    obtain ⟨hsnd, hok, herr⟩ := initVariable_resolved fs n validator d env env2 hres
    obtain ⟨hcases, hpres, hfix⟩ := resolveValue_ok_main fs n d env env2 hres
    have hvalnone : (validator.safeParse (optToJSVal (orJS (envGet env2 n) d))).error = none := by
      cases hval : (validator.safeParse (optToJSVal (orJS (envGet env2 n) d))).error with
      | none => rfl
      | some e =>
        rw [herr e hval] at hsucc
        exact absurd hsucc (by simp)
    rw [hsnd]
    refine ⟨hvalnone, ?_, ?_⟩
    · intro v hv
      rcases hcases with ht | ⟨he, hd⟩ | ⟨he, hd⟩
      · rw [hv] at ht ⊢
        exact orJS_truthy _ _ ht
      · rw [he] at hv ⊢
        injection hv with hv
        subst hv
        rw [hd]
        exact orJS_falsy _ _ truthy_empty
      · rw [he] at hv
        exact absurd hv (by simp)
    · intro hnone
      rcases hcases with ht | ⟨he, hd⟩ | ⟨he, hd⟩
      · rw [hnone] at ht
        exact absurd ht (by decide)
      · rw [he] at hnone
        exact absurd hnone (by simp)
      · rw [hnone, hd]
        exact ⟨rfl, rfl⟩

/-- C6 witness: successful default resolution, entry equals the validated
candidate. -/
theorem c6_witness :
    (initVariable fsNone "PORT" REQUIRED (some "8080") storeEmpty).1 = Except.ok () ∧
    (REQUIRED.safeParse (optToJSVal (orJS
      (envGet (initVariable fsNone "PORT" REQUIRED (some "8080") storeEmpty).2 "PORT")
      (some "8080")))).error = none ∧
    orJS (envGet (initVariable fsNone "PORT" REQUIRED (some "8080") storeEmpty).2 "PORT")
      (some "8080") = some "8080" :=
  ⟨by decide,
    (c6_store_matches_validated fsNone "PORT" REQUIRED (some "8080") storeEmpty (by decide)).1,
    (c6_store_matches_validated fsNone "PORT" REQUIRED (some "8080") storeEmpty
      (by decide)).2.1 "8080" (by decide)⟩

theorem string_length_pos (s : String) : 0 < s.length ↔ s ≠ "" := by
  cases s with
  | mk data =>
    constructor
    · intro h hb
      rw [hb] at h
      exact absurd h (by decide)
    · intro h
      have hd : data ≠ [] := by
        intro hd
        exact h (by rw [hd])
      have hlen : 0 < data.length := List.length_pos.mpr hd
      simpa [String.length] using hlen

theorem append_ne_empty_left (a b : String) (h : a ≠ "") : a ++ b ≠ "" := by
  rw [← string_length_pos, String.length_append]
  have hpos := (string_length_pos a).mpr h
  omega

/-- C7: the four built-in presets exist, their `isOptional` answers match
their names, and their `safeParse` acceptance behaviour is exactly as
specified: `REQUIRED` accepts exactly strings; `OPTIONAL` exactly strings and
`undefined`; `REQUIRED_NON_EMPTY` exactly non-empty strings;
`OPTIONAL_NON_EMPTY` exactly `undefined` and non-empty strings. Every other
input (numbers, booleans, symbols, and absence where required) is rejected
with a non-empty descriptive error message. -/
theorem c7_validator_presets :
    (REQUIRED.isOptional = false ∧ OPTIONAL.isOptional = true ∧
      REQUIRED_NON_EMPTY.isOptional = false ∧ OPTIONAL_NON_EMPTY.isOptional = true) ∧
    (∀ val, (REQUIRED.safeParse val).error = none ↔ typeofJS val = "string") ∧
    (∀ val, (OPTIONAL.safeParse val).error = none ↔
      (typeofJS val = "string" ∨ val = JSVal.undef)) ∧
    (∀ val, (REQUIRED_NON_EMPTY.safeParse val).error = none ↔
      ∃ s, val = JSVal.str s ∧ s ≠ "") ∧
    (∀ val, (OPTIONAL_NON_EMPTY.safeParse val).error = none ↔
      (val = JSVal.undef ∨ ∃ s, val = JSVal.str s ∧ s ≠ "")) ∧
    (∀ val, (REQUIRED.safeParse val).error = none ∨
      ∃ e, (REQUIRED.safeParse val).error = some e ∧ e.message ≠ "") ∧
    (∀ val, (OPTIONAL.safeParse val).error = none ∨
      ∃ e, (OPTIONAL.safeParse val).error = some e ∧ e.message ≠ "") ∧
    (∀ val, (REQUIRED_NON_EMPTY.safeParse val).error = none ∨
      ∃ e, (REQUIRED_NON_EMPTY.safeParse val).error = some e ∧ e.message ≠ "") ∧
    (∀ val, (OPTIONAL_NON_EMPTY.safeParse val).error = none ∨
      ∃ e, (OPTIONAL_NON_EMPTY.safeParse val).error = some e ∧ e.message ≠ "") := by
  refine ⟨⟨rfl, rfl, rfl, rfl⟩, ?_, ?_, ?_, ?_, ?_, ?_, ?_, ?_⟩
  · intro val
    cases val with
    | str s => simp [REQUIRED, typeofJS]
    | undef => exact iff_of_false (fun h => Option.noConfusion h) (by decide)
    | num m =>
      refine iff_of_false (fun h => Option.noConfusion h) ?_
      intro h
      have h' : ("number" : String) = "string" := h
      exact absurd h' (by decide)
    | boolean b =>
      refine iff_of_false (fun h => Option.noConfusion h) ?_
      intro h
      have h' : ("boolean" : String) = "string" := h
      exact absurd h' (by decide)
    | sym d =>
      refine iff_of_false (fun h => Option.noConfusion h) ?_
      intro h
      have h' : ("symbol" : String) = "string" := h
      exact absurd h' (by decide)
  · intro val
    cases val with
    | str s => exact iff_of_true rfl (Or.inl rfl)
    | undef => exact iff_of_true rfl (Or.inr rfl)
    | num m =>
      refine iff_of_false (fun h => Option.noConfusion h) ?_
      rintro (h | h)
      · have h' : ("number" : String) = "string" := h
        exact absurd h' (by decide)
      · exact JSVal.noConfusion h
    | boolean b =>
      refine iff_of_false (fun h => Option.noConfusion h) ?_
      rintro (h | h)
      · have h' : ("boolean" : String) = "string" := h
        exact absurd h' (by decide)
      · exact JSVal.noConfusion h
    | sym d =>
      refine iff_of_false (fun h => Option.noConfusion h) ?_
      rintro (h | h)
      · have h' : ("symbol" : String) = "string" := h
        exact absurd h' (by decide)
      · exact JSVal.noConfusion h
  · intro val
    cases val with
    | str s =>
      by_cases hs : s = ""
      · subst hs
        refine iff_of_false (by decide) ?_
        rintro ⟨t, ht, hne⟩
        injection ht with ht
        exact hne ht.symm
      · have hpos : s.length > 0 := (string_length_pos s).mpr hs
        exact iff_of_true (by simp [REQUIRED_NON_EMPTY, hpos]) ⟨s, rfl, hs⟩
    | undef =>
      exact iff_of_false (fun h => Option.noConfusion h)
        (by rintro ⟨t, ht, _⟩; exact JSVal.noConfusion ht)
    | num m =>
      exact iff_of_false (fun h => Option.noConfusion h)
        (by rintro ⟨t, ht, _⟩; exact JSVal.noConfusion ht)
    | boolean b =>
      exact iff_of_false (fun h => Option.noConfusion h)
        (by rintro ⟨t, ht, _⟩; exact JSVal.noConfusion ht)
    | sym d =>
      exact iff_of_false (fun h => Option.noConfusion h)
        (by rintro ⟨t, ht, _⟩; exact JSVal.noConfusion ht)
  · intro val
    cases val with
    | str s =>
      by_cases hs : s = ""
      · subst hs
        refine iff_of_false (by decide) ?_
        rintro (h | ⟨t, ht, hne⟩)
        · exact JSVal.noConfusion h
        · injection ht with ht
          exact hne ht.symm
      · have hpos : s.length > 0 := (string_length_pos s).mpr hs
        exact iff_of_true (by simp [OPTIONAL_NON_EMPTY, hpos]) (Or.inr ⟨s, rfl, hs⟩)
    | undef => exact iff_of_true rfl (Or.inl rfl)
    | num m =>
      refine iff_of_false (fun h => Option.noConfusion h) ?_
      rintro (h | ⟨t, ht, _⟩)
      · exact JSVal.noConfusion h
      · exact JSVal.noConfusion ht
    | boolean b =>
      refine iff_of_false (fun h => Option.noConfusion h) ?_
      rintro (h | ⟨t, ht, _⟩)
      · exact JSVal.noConfusion h
      · exact JSVal.noConfusion ht
    | sym d =>
      refine iff_of_false (fun h => Option.noConfusion h) ?_
      rintro (h | ⟨t, ht, _⟩)
      · exact JSVal.noConfusion h
      · exact JSVal.noConfusion ht
  · intro val
    cases val with
    | str s => exact Or.inl rfl
    | undef => exact Or.inr ⟨_, rfl, by decide⟩
    | num m => exact Or.inr ⟨_, rfl, append_ne_empty_left _ _ (by decide)⟩
    | boolean b => exact Or.inr ⟨_, rfl, append_ne_empty_left _ _ (by decide)⟩
    | sym d => exact Or.inr ⟨_, rfl, append_ne_empty_left _ _ (by decide)⟩
  · intro val
    cases val with
    | str s => exact Or.inl rfl
    | undef => exact Or.inl rfl
    | num m => exact Or.inr ⟨_, rfl, append_ne_empty_left _ _ (by decide)⟩
    | boolean b => exact Or.inr ⟨_, rfl, append_ne_empty_left _ _ (by decide)⟩
    | sym d => exact Or.inr ⟨_, rfl, append_ne_empty_left _ _ (by decide)⟩
  · intro val
    cases val with
    | str s =>
      by_cases hs : s = ""
      · subst hs
        exact Or.inr ⟨_, rfl, by decide⟩
      · have hpos : s.length > 0 := (string_length_pos s).mpr hs
        exact Or.inl (by simp [REQUIRED_NON_EMPTY, hpos])
    | undef => exact Or.inr ⟨_, rfl, by decide⟩
    | num m =>
      exact Or.inr ⟨_, rfl, append_ne_empty_left _ "\""
        (append_ne_empty_left "Expected value to be a non-empty string, but got \"" _
          (by decide))⟩
    | boolean b =>
      exact Or.inr ⟨_, rfl, append_ne_empty_left _ "\""
        (append_ne_empty_left "Expected value to be a non-empty string, but got \"" _
          (by decide))⟩
    | sym d =>
      exact Or.inr ⟨_, rfl, append_ne_empty_left _ "\""
        (append_ne_empty_left "Expected value to be a non-empty string, but got \"" _
          (by decide))⟩
  · intro val
    cases val with
    | str s =>
      by_cases hs : s = ""
      · subst hs
        exact Or.inr ⟨_, rfl, by decide⟩
      · have hpos : s.length > 0 := (string_length_pos s).mpr hs
        exact Or.inl (by simp [OPTIONAL_NON_EMPTY, hpos])
    | undef => exact Or.inl rfl
    | num m =>
      exact Or.inr ⟨_, rfl, append_ne_empty_left _ "\""
        (append_ne_empty_left "Expected value to be undefined or a non-empty string, but got \"" _
          (by decide))⟩
    | boolean b =>
      exact Or.inr ⟨_, rfl, append_ne_empty_left _ "\""
        (append_ne_empty_left "Expected value to be undefined or a non-empty string, but got \"" _
          (by decide))⟩
    | sym d =>
      exact Or.inr ⟨_, rfl, append_ne_empty_left _ "\""
        (append_ne_empty_left "Expected value to be undefined or a non-empty string, but got \"" _
          (by decide))⟩

/-- C8: under an unchanged filesystem, running `initVariable` a second time
with identical arguments from the store state the first call left behind
reproduces the first call's outcome and final store state. -/
theorem c8_idempotent (fs : FS) (n : String) (validator : ZodSchemaCompat)
    (d : Option String) (env : Store) :
    initVariable fs n validator d (initVariable fs n validator d env).2 =
      initVariable fs n validator d env := by
  cases hres : resolveValue fs n d env with
  | error e =>
    rw [initVariable_fileError fs n validator d env e hres]
    exact initVariable_fileError fs n validator d env e hres
  | ok env2 =>
    obtain ⟨hcases, hpres, hfix⟩ := resolveValue_ok_main fs n d env env2 hres
    obtain ⟨hsnd, hok, herr⟩ := initVariable_resolved fs n validator d env env2 hres
    obtain ⟨hsnd2, hok2, herr2⟩ := initVariable_resolved fs n validator d env2 env2 hfix
    rw [hsnd]
    cases hval : (validator.safeParse (optToJSVal (orJS (envGet env2 n) d))).error with
    | none => exact pairEq _ _ (by rw [hok2 hval, hok hval]) (by rw [hsnd2, hsnd])
    | some e => exact pairEq _ _ (by rw [herr2 e hval, herr e hval]) (by rw [hsnd2, hsnd])

/-- C9: environment-store mutations are not rolled back on a validation
failure: (a) a candidate sourced from a `_FILE` file stays stored under the
name after the rejection; (b) with no source and no default, a pre-existing
(empty-string) entry stays deleted after the rejection. -/
theorem c9_no_rollback :
    ((initVariable (fsSingle "p" "c") "X" FAILING_VALIDATOR none
        (storeSingle "X_FILE" "p")).1 = Except.error (InitError.configParseError
        ("Could not parse variable " ++ "X" ++ ". Details:\nError: " ++ "parse error") none) ∧
      envGet (initVariable (fsSingle "p" "c") "X" FAILING_VALIDATOR none
        (storeSingle "X_FILE" "p")).2 "X" = some "c") ∧
    (envGet (storeSingle "X" "") "X" = some "" ∧
      (initVariable fsNone "X" REQUIRED none (storeSingle "X" "")).1 = Except.error
        (InitError.configParseError ("Could not parse variable " ++ "X" ++
          ". Details:\nError: " ++ "Expected value to be a string, but got undefined") none) ∧
      envGet (initVariable fsNone "X" REQUIRED none (storeSingle "X" "")).2 "X" = none) := by
  decide

/-- C10: the resolver's observable behaviour (outcome and final store state)
depends on the validator only through `safeParse`: two validators with the
same `safeParse` behave identically, whatever their `isOptional` answers. -/
theorem c10_isOptional_irrelevant (fs : FS) (n : String) (d : Option String) (env : Store)
    (v1 v2 : ZodSchemaCompat) (h : v1.safeParse = v2.safeParse) :
    initVariable fs n v1 d env = initVariable fs n v2 d env := by
  simp only [initVariable, h]

/-- C10 witness: `REQUIRED` and a variant with the opposite `isOptional` but
the same `safeParse` produce identical results. -/
theorem c10_witness :
    REQUIRED.safeParse = REQUIRED_MARKED_OPTIONAL.safeParse ∧
    REQUIRED.isOptional ≠ REQUIRED_MARKED_OPTIONAL.isOptional ∧
    initVariable fsNone "X" REQUIRED (some "8080") storeEmpty =
      initVariable fsNone "X" REQUIRED_MARKED_OPTIONAL (some "8080") storeEmpty :=
  ⟨rfl, by decide,
    c10_isOptional_irrelevant fsNone "X" (some "8080") storeEmpty REQUIRED
      REQUIRED_MARKED_OPTIONAL rfl⟩

end Envar
